import Mathlib

/-!
Shallow embedding of the two core components of the DeepseekMCP repository:
the jittered exponential-backoff retry executor (src/retry.go) and the
TTL-based ephemeral context cache (src/cache.go, with the server state and
CacheInfo record declared in the server file), together with theorems
settling the specification claims.

Durations and timestamps are modelled as integer nanoseconds (Int), exactly
the representation used by Go time.Duration and time.Time.UnixNano.  Go
errors are modelled as `Option String` (nil, or the error message); the
code under study builds and distinguishes errors only through their
message strings.
-/

namespace DeepseekMCP

/-!
Retry executor, from src/retry.go, function RetryWithBackoff.

The environment packages the effectful inputs of one run: the result of
the k-th invocation of `operation` (0-indexed), the classifier, the jitter
value drawn by `time.Duration(r.Float64() * (0.1 * float64(backoff)))`
before the k-th wait, and whether the context is cancelled during the
k-th wait (the `select` on `ctx.Done()`).
-/

structure RetryEnv where
  op : Nat → Option String
  errorClassifier : String → Bool
  jitter : Nat → Int
  cancelled : Nat → Bool

/--
The observable trace of one run of RetryWithBackoff: the returned error,
the number of invocations of `operation`, the value of the `backoff`
variable at each wait the run reached (the pre-jitter base delay), and the
duration `nextBackoff` of each wait the run completed in full.
-/
structure RetryTrace where
  result : Option String
  attempts : Nat
  baseDelays : List Int
  waits : List Int
deriving DecidableEq

def cancelledMsg : String := "operation cancelled during backoff"

/--
The loop of RetryWithBackoff.  The Go loop is
`for attempt := 0; attempt <= maxRetries; attempt++`; here `fuel` counts
the loop iterations still permitted by the loop condition, so the check
`attempt == maxRetries` of the source becomes `remaining = 0`.  The body
is a line-for-line translation: return the error (nil on success) when the
operation succeeds or the classifier rejects its error; return the raw
error on the last attempt; otherwise compute
`nextBackoff := min (backoff + jitter) maxBackoff` (the source writes the
cap as an if statement executed after the jitter is added), return the
cancellation error if `ctx.Done()` fires during the wait, and continue
with `backoff * 2` (the source doubles through float64, which is exact for
every duration below 2^53 ns).
-/
def retryGo (env : RetryEnv) (maxBackoff : Int) :
    Nat → Nat → Int → Option String → RetryTrace
  | 0, _, _, err => ⟨err, 0, [], []⟩
  | remaining + 1, attempt, backoff, _ =>
    match env.op attempt with
    | none => ⟨none, 1, [], []⟩
    | some msg =>
      if env.errorClassifier msg = false then ⟨some msg, 1, [], []⟩
      else if remaining = 0 then ⟨some msg, 1, [], []⟩
      else
        let nextBackoff := min (backoff + env.jitter attempt) maxBackoff
        if env.cancelled attempt then
          ⟨some cancelledMsg, 1, [backoff], []⟩
        else
          let t := retryGo env maxBackoff remaining (attempt + 1) (backoff * 2) (some msg)
          ⟨t.result, t.attempts + 1, backoff :: t.baseDelays, nextBackoff :: t.waits⟩

/--
RetryWithBackoff, from src/retry.go.  `maxRetries` is an Int because the
Go parameter is an int with no sign check; the loop
`for attempt := 0; attempt <= maxRetries` runs at most `maxRetries + 1`
times, and not at all when `maxRetries < 0`, in which case the function
returns the zero value of `var err error`, that is nil.
-/
def RetryWithBackoff (maxRetries : Int) (initialBackoff maxBackoff : Int)
    (env : RetryEnv) : RetryTrace :=
  retryGo env maxBackoff (maxRetries + 1).toNat 0 initialBackoff none

/-!
Model registry, from src/models.go.  createCache validates the model with
the package-level ValidateModelID, which checks membership in the fallback
model list.
-/

structure DeepseekModelInfo where
  ID : String
  Name : String
  Description : String
deriving DecidableEq

def getFallbackDeepseekModels : List DeepseekModelInfo :=
  [⟨"deepseek-chat", "DeepSeek Chat",
    "General-purpose chat model from DeepSeek, balancing performance and efficiency"⟩,
   ⟨"deepseek-coder", "DeepSeek Coder",
    "Specialized model for coding and technical tasks"⟩,
   ⟨"deepseek-reasoner", "DeepSeek Reasoner",
    "Model optimized for reasoning and problem-solving tasks"⟩]

def GetAvailableDeepseekModels : List DeepseekModelInfo :=
  getFallbackDeepseekModels

def GetModelByID (modelID : String) : Option DeepseekModelInfo :=
  GetAvailableDeepseekModels.find? (fun m => m.ID == modelID)

/-- ValidateModelID, from src/models.go: `none` models the nil error. -/
def ValidateModelID (modelID : String) : Option String :=
  match GetModelByID modelID with
  | some _ => none
  | none =>
    some ("Invalid model ID: " ++ modelID ++ ". Available models are:" ++
      GetAvailableDeepseekModels.foldl
        (fun acc m => acc ++ "\n- " ++ m.ID ++ ": " ++ m.Name) "")

/-!
Cache store, from src/cache.go.  The server state `s.caches` is a Go map
from string to CacheInfo; it is modelled as an association list in which a
key occurs at most once (mapSet overwrites in place, as a Go map insert
does; mapDel drops every binding of the key, which on the duplicate-free
states reachable from the empty map is exactly the Go delete).
-/

structure Config where
  EnableCaching : Bool
  DefaultCacheTTL : Int
deriving DecidableEq

/--
The TTL string of a CacheRequest, seen through time.ParseDuration: the
empty string, a non-empty string that ParseDuration rejects (carrying the
message of the parse error), or a non-empty string parsing to `d`
nanoseconds.
-/
inductive TTLField where
  | empty
  | invalid (msg : String)
  | dur (d : Int)
deriving DecidableEq

structure CacheRequest where
  Model : String
  SystemPrompt : String
  FilePaths : List String
  TTL : TTLField
deriving DecidableEq

structure CacheInfo where
  ID : String
  SystemPrompt : String
  Model : String
  FilePaths : List String
  CreatedAt : Int
  ExpiresAt : Int
deriving DecidableEq

abbrev CacheMap := List (String × CacheInfo)

def mapGet : CacheMap → String → Option CacheInfo
  | [], _ => none
  | (k, v) :: rest, id => if k = id then some v else mapGet rest id

def mapSet : CacheMap → String → CacheInfo → CacheMap
  | [], id, v => [(id, v)]
  | (k, w) :: rest, id, v =>
    if k = id then (k, v) :: rest else (k, w) :: mapSet rest id v

def mapDel (m : CacheMap) (id : String) : CacheMap :=
  m.filter (fun p => p.1 ≠ id)

/-- The id the source builds by fmt.Sprintf("cache-%d", ...) from
time.Now().UnixNano(). -/
def cacheIDOf (nowNano : Int) : String := "cache-" ++ toString nowNano

/-- The TTL resolution step of createCache: an empty TTL string selects the
configured default, a parse failure is wrapped by fmt.Errorf prepending
`invalid TTL format: `, and a parsed duration is used as is — the source
has no sign check of any kind. -/
def resolveTTL (cfg : Config) : TTLField → Except String Int
  | .empty => .ok cfg.DefaultCacheTTL
  | .invalid msg => .error ("invalid TTL format: " ++ msg)
  | .dur d => .ok d

/--
createCache, from src/cache.go.  The source reads the clock twice in
immediate succession: `nowNano` models the time.Now().UnixNano() read used
for the cache id, `nowCreate` the time.Now() read stored as CreatedAt.
Returns the Go pair (result, mutated cache map).
-/
def createCache (cfg : Config) (nowNano nowCreate : Int) (caches : CacheMap)
    (req : CacheRequest) : Except String CacheInfo × CacheMap :=
  if cfg.EnableCaching = false then (.error "caching is disabled", caches)
  else if req.Model = "" then (.error "model is required", caches)
  else
    match ValidateModelID req.Model with
    | some e => (.error ("invalid model: " ++ e), caches)
    | none =>
      match resolveTTL cfg req.TTL with
      | .error e => (.error e, caches)
      | .ok ttl =>
        let cacheID := cacheIDOf nowNano
        let createdAt := nowCreate
        let expiresAt := createdAt + ttl
        let cacheInfo : CacheInfo :=
          ⟨cacheID, req.SystemPrompt, req.Model, req.FilePaths, createdAt, expiresAt⟩
        (.ok cacheInfo, mapSet caches cacheID cacheInfo)

/--
getCache, from src/cache.go.  `time.Now().After(info.ExpiresAt)` is the
strict comparison `info.ExpiresAt < now`; on an expired hit the entry is
deleted and the error is `cache has expired`, on a miss the error is
`cache not found: ` followed by the id, and on a live hit the entry is
returned with no mutation.
-/
def getCache (now : Int) (caches : CacheMap) (id : String) :
    Except String CacheInfo × CacheMap :=
  match mapGet caches id with
  | some info =>
    if info.ExpiresAt < now then
      (.error "cache has expired", mapDel caches id)
    else
      (.ok info, caches)
  | none => (.error ("cache not found: " ++ id), caches)

end DeepseekMCP

deriving instance DecidableEq for Except

namespace DeepseekMCP

/-! Concrete environments and requests used by witnesses and
counterexamples. -/

/-- An operation that always fails with a retryable error, never
cancelled, zero jitter draw. -/
def env0 : RetryEnv := ⟨fun _ => some "timeout", fun _ => true, fun _ => 0, fun _ => false⟩

/-- An operation that always fails with an error the classifier rejects. -/
def envNonRetryable : RetryEnv :=
  ⟨fun _ => some "auth failure", fun _ => false, fun _ => 0, fun _ => false⟩

/-- Always fails with message `boom`; the classifier accepts it. -/
def envExhaust : RetryEnv :=
  ⟨fun _ => some "boom", fun _ => true, fun _ => 0, fun _ => false⟩

/-- Always fails with message `boom`; the classifier rejects it. -/
def envReject : RetryEnv :=
  ⟨fun _ => some "boom", fun _ => false, fun _ => 0, fun _ => false⟩

/-- Always fails retryably and the context is cancelled during the second
wait (wait index 1). -/
def envCancelAt1 : RetryEnv :=
  ⟨fun _ => some "timeout", fun _ => true, fun _ => 0, fun k => decide (k = 1)⟩

def cfgOn : Config := ⟨true, 3600000000000⟩

def cfgOff : Config := ⟨false, 0⟩

def reqSame : CacheRequest := ⟨"deepseek-chat", "", [], .dur 1000⟩

def reqNeg : CacheRequest := ⟨"deepseek-chat", "p", ["f"], .dur (-1000)⟩

def reqBad : CacheRequest := ⟨"no-such-model", "", [], .invalid "bad duration"⟩

def req5 : CacheRequest := ⟨"deepseek-chat", "p", [], .dur 1000⟩

def info5 : CacheInfo := ⟨"cache-5", "p", "deepseek-chat", [], 5, 1005⟩

/-! Helper lemmas shared by several claims. -/

/-- Closed form of the retry loop when every invocation fails with an
error the classifier accepts and no cancellation ever fires: the run uses
all its fuel, the k-th pre-jitter base delay is the initial backoff
doubled k times with no cap, and each completed wait is the jittered base
capped at maxBackoff. -/
theorem retryGo_alwaysFail (env : RetryEnv) (mb : Int)
    (hop : ∀ j, env.op j ≠ none)
    (hcl : ∀ j msg, env.op j = some msg → env.errorClassifier msg = true)
    (hcan : ∀ j, env.cancelled j = false) :
    ∀ (rem k : Nat) (b : Int) (e : Option String),
    retryGo env mb (rem + 1) k b e =
      ⟨env.op (k + rem), rem + 1,
       (List.range rem).map (fun i => b * 2 ^ i),
       (List.range rem).map (fun i => min (b * 2 ^ i + env.jitter (k + i)) mb)⟩ := by
  intro rem
  induction rem with
  | zero =>
    intro k b e
    match hmsg : env.op k with
    | none => exact absurd hmsg (hop k)
    | some msg =>
      simp [retryGo, hmsg, hcl k msg hmsg]
  | succ n ih =>
    intro k b e
    match hmsg : env.op k with
    | none => exact absurd hmsg (hop k)
    | some msg =>
      rw [retryGo]
      simp only [hmsg, hcl k msg hmsg, hcan k, Bool.true_eq_false, if_false,
        Nat.succ_ne_zero, Bool.false_eq_true]
      rw [ih (k + 1) (b * 2) (some msg)]
      simp [List.range_succ_eq_map, List.map_map, Function.comp_def]
      refine ⟨by rw [show k + 1 + n = k + (n + 1) by omega], fun a _ => by ring,
        fun a _ => by
          rw [show k + 1 + a = k + (a + 1) by omega, show b * 2 * 2 ^ a = b * 2 ^ (a + 1) by ring]⟩

/-- If the run reaches the wait with index `d` (all earlier attempts fail
retryably and no earlier wait is cancelled) and the context is cancelled
during that wait, the run returns the cancellation error after exactly
`d + 1` attempts and `d` completed waits. -/
theorem retryGo_cancelled (env : RetryEnv) (mb : Int)
    (hop : ∀ j, env.op j ≠ none)
    (hcl : ∀ j msg, env.op j = some msg → env.errorClassifier msg = true) :
    ∀ (d rem k : Nat) (b : Int) (e : Option String), d < rem →
    (∀ j, j < d → env.cancelled (k + j) = false) →
    env.cancelled (k + d) = true →
    (retryGo env mb (rem + 1) k b e).result = some cancelledMsg ∧
    (retryGo env mb (rem + 1) k b e).attempts = d + 1 ∧
    (retryGo env mb (rem + 1) k b e).waits.length = d := by
  intro d
  induction d with
  | zero =>
    intro rem k b e hlt _ hat
    match hmsg : env.op k with
    | none => exact absurd hmsg (hop k)
    | some msg =>
      obtain ⟨rem', rfl⟩ : ∃ r, rem = r + 1 := ⟨rem - 1, by omega⟩
      rw [Nat.add_zero] at hat
      rw [retryGo]
      simp [hmsg, hcl k msg hmsg, hat]
  | succ n ih =>
    intro rem k b e hlt hbefore hat
    match hmsg : env.op k with
    | none => exact absurd hmsg (hop k)
    | some msg =>
      obtain ⟨rem', rfl⟩ : ∃ r, rem = r + 1 := ⟨rem - 1, by omega⟩
      have hc0 : env.cancelled k = false := by
        have := hbefore 0 (Nat.succ_pos n)
        rwa [Nat.add_zero] at this
      have hrec := ih rem' (k + 1) (b * 2) (some msg) (by omega)
        (fun j hj => by
          rw [show k + 1 + j = k + (j + 1) by omega]
          exact hbefore (j + 1) (by omega))
        (by rw [show k + 1 + n = k + (n + 1) by omega]; exact hat)
      rw [retryGo]
      simp [hmsg, hcl k msg hmsg, hc0, hrec.1, hrec.2.1, hrec.2.2]

/-- Closed form of a full always-retryably-failing, never-cancelled run of
RetryWithBackoff with `maxRetries = M ≥ 0`. -/
theorem RetryWithBackoff_alwaysFail (env : RetryEnv) (ib mb : Int) (M : Nat)
    (hop : ∀ j, env.op j ≠ none)
    (hcl : ∀ j msg, env.op j = some msg → env.errorClassifier msg = true)
    (hcan : ∀ j, env.cancelled j = false) :
    RetryWithBackoff (M : Int) ib mb env =
      ⟨env.op M, M + 1,
       (List.range M).map (fun i => ib * 2 ^ i),
       (List.range M).map (fun i => min (ib * 2 ^ i + env.jitter i) mb)⟩ := by
  have ht : ((M : Int) + 1).toNat = M + 1 := by omega
  rw [RetryWithBackoff, ht, retryGo_alwaysFail env mb hop hcl hcan M 0 ib none]
  simp

theorem mapGet_mapSet_self (m : CacheMap) (k : String) (v : CacheInfo) :
    mapGet (mapSet m k v) k = some v := by
  induction m with
  | nil => simp [mapSet, mapGet]
  | cons p rest ih =>
    obtain ⟨k2, w⟩ := p
    by_cases hk : k2 = k
    · simp [mapSet, mapGet, hk]
    · simp [mapSet, mapGet, hk, ih]

theorem mapGet_mapDel_self (m : CacheMap) (k : String) :
    mapGet (mapDel m k) k = none := by
  induction m with
  | nil => rfl
  | cons p rest ih =>
    obtain ⟨k2, w⟩ := p
    by_cases hk : k2 = k
    · simpa [mapDel, List.filter_cons, hk] using ih
    · simpa [mapDel, List.filter_cons, hk, mapGet] using ih

/-- The expired message differs from every not-found message, whatever the
looked-up id. -/
theorem expired_ne_notFound (s : String) :
    ("cache has expired" : String) ≠ "cache not found: " ++ s := by
  intro h
  have hlen := congrArg String.length h
  rw [String.length_append] at hlen
  have h17 : ("cache has expired" : String).length = 17 := by decide
  have h17b : ("cache not found: " : String).length = 17 := by decide
  rw [h17, h17b] at hlen
  have hs : s.length = 0 := by omega
  have hse : s = "" := by
    obtain ⟨data⟩ := s
    cases data with
    | nil => rfl
    | cons c cs => simp [String.length] at hs
  subst hse
  exact absurd h (by decide)

/-- Anatomy of a successful createCache call: the resolved ttl, the stored
record, and the mutated table. -/
theorem createCache_ok (cfg : Config) (tid tc : Int) (st : CacheMap)
    (req : CacheRequest) (info : CacheInfo) (st1 : CacheMap)
    (h : createCache cfg tid tc st req = (Except.ok info, st1)) :
    ∃ ttl, resolveTTL cfg req.TTL = Except.ok ttl ∧
      info = ⟨cacheIDOf tid, req.SystemPrompt, req.Model, req.FilePaths, tc, tc + ttl⟩ ∧
      st1 = mapSet st info.ID info := by
  unfold createCache at h
  split at h
  · simp at h
  · split at h
    · simp at h
    · split at h
      · simp at h
      · split at h
        · simp at h
        next ttl heq =>
          rw [Prod.mk.injEq] at h
          obtain ⟨h1, h2⟩ := h
          rw [Except.ok.injEq] at h1
          exact ⟨ttl, heq, h1.symm, by rw [← h2, ← h1]⟩

/-! Claim theorems. -/

/--
C1: with initialBackoff = 1s, maxBackoff = 10s and maxAttempts = 5 (the
spec policy field maxAttempts counts all attempts including the first, so
the source parameter maxRetries is 4) and an operation that always fails
with an error the classifier accepts, RetryWithBackoff invokes the
operation exactly 5 times and the four pre-jitter base delays between
attempts are 1s, 2s, 4s, 8s (values in nanoseconds).
-/
theorem retry_sequencing_five_attempts (env : RetryEnv)
    (hop : ∀ j, env.op j ≠ none)
    (hcl : ∀ j msg, env.op j = some msg → env.errorClassifier msg = true)
    (hcan : ∀ j, env.cancelled j = false) :
    (RetryWithBackoff 4 1000000000 10000000000 env).attempts = 5 ∧
    (RetryWithBackoff 4 1000000000 10000000000 env).baseDelays =
      [1000000000, 2000000000, 4000000000, 8000000000] := by
  have h := RetryWithBackoff_alwaysFail env 1000000000 10000000000 4 hop hcl hcan
  rw [show ((4 : Nat) : Int) = (4 : Int) by norm_num] at h
  rw [h]
  refine ⟨rfl, ?_⟩
  show (List.range 4).map (fun i => (1000000000 : Int) * 2 ^ i) =
    [1000000000, 2000000000, 4000000000, 8000000000]
  decide

/-- Witness for C1 at the concrete always-failing environment. -/
theorem retry_sequencing_five_attempts_witness :
    (RetryWithBackoff 4 1000000000 10000000000 env0).attempts = 5 ∧
    (RetryWithBackoff 4 1000000000 10000000000 env0).baseDelays =
      [1000000000, 2000000000, 4000000000, 8000000000] :=
  retry_sequencing_five_attempts env0 (fun _ h => Option.noConfusion h)
    (fun _ _ _ => rfl) (fun _ => rfl)

/--
C2 counterexample: the claim says the base delay before the (n+1)-th
attempt is min(initialBackoff * 2^(n-1), maxBackoff).  In the code the
`backoff` variable is never capped: with initialBackoff = 1s,
maxBackoff = 10s and maxRetries = 5, the base delay used at the 5th wait
(n = 5) is 16s, not min(16s, 10s) = 10s; the cap is applied only to the
jittered sum.
-/
theorem retry_base_cap_counterexample :
    (RetryWithBackoff 5 1000000000 10000000000 env0).baseDelays[4]? =
      some 16000000000 ∧
    (16000000000 : Int) ≠ min (1000000000 * 2 ^ 4) 10000000000 := by
  refine ⟨by decide, by decide⟩

/--
C2 amended: in an always-retryably-failing, never-cancelled run with
`maxRetries = M`, for every retry number n with 1 ≤ n ≤ M the base delay
before the (n+1)-th attempt is initialBackoff * 2^(n-1) with no cap
applied to the base, and the actual wait is
min(baseDelay + jitter, maxBackoff): the maxBackoff cap is applied to the
jittered sum, after the jitter is added.
-/
theorem retry_base_uncapped_amended (env : RetryEnv) (ib mb : Int) (M n : Nat)
    (hop : ∀ j, env.op j ≠ none)
    (hcl : ∀ j msg, env.op j = some msg → env.errorClassifier msg = true)
    (hcan : ∀ j, env.cancelled j = false)
    (h1 : 1 ≤ n) (h2 : n ≤ M) :
    (RetryWithBackoff (M : Int) ib mb env).baseDelays[n - 1]? =
      some (ib * 2 ^ (n - 1)) ∧
    (RetryWithBackoff (M : Int) ib mb env).waits[n - 1]? =
      some (min (ib * 2 ^ (n - 1) + env.jitter (n - 1)) mb) := by
  rw [RetryWithBackoff_alwaysFail env ib mb M hop hcl hcan]
  have hlt : n - 1 < M := by omega
  constructor
  · rw [List.getElem?_map, List.getElem?_range hlt]
    rfl
  · rw [List.getElem?_map, List.getElem?_range hlt]
    rfl

/-- Witness for the amended C2 at n = 2, maxRetries = 4. -/
theorem retry_base_uncapped_amended_witness :
    (RetryWithBackoff ((4 : Nat) : Int) 1000000000 10000000000 env0).baseDelays[2 - 1]? =
      some (1000000000 * 2 ^ (2 - 1)) ∧
    (RetryWithBackoff ((4 : Nat) : Int) 1000000000 10000000000 env0).waits[2 - 1]? =
      some (min (1000000000 * 2 ^ (2 - 1) + env0.jitter (2 - 1)) 10000000000) :=
  retry_base_uncapped_amended env0 1000000000 10000000000 4 2
    (fun _ h => Option.noConfusion h) (fun _ _ _ => rfl) (fun _ => rfl)
    (by decide) (by decide)

/--
C3: the source generates the cache id purely from the observed clock
reading (`fmt.Sprintf("cache-%d", time.Now().UnixNano())`), despite the
comment `Generate a unique cache ID`.  Two createCache calls that observe
the same nanosecond tick (here 7) both return id `cache-7`, and the second
map insert overwrites the first: after two successful creates the table
holds a single entry, so ids are not pairwise distinct and one entry is
lost.
-/
theorem cache_same_tick_id_collision :
    (createCache cfgOn 7 7 [] reqSame).1 =
      Except.ok ⟨"cache-7", "", "deepseek-chat", [], 7, 1007⟩ ∧
    (createCache cfgOn 7 7 ((createCache cfgOn 7 7 [] reqSame).2) reqSame).1 =
      Except.ok ⟨"cache-7", "", "deepseek-chat", [], 7, 1007⟩ ∧
    ((createCache cfgOn 7 7 ((createCache cfgOn 7 7 [] reqSame).2) reqSame).2).length
      = 1 := by
  refine ⟨by decide, by decide, by decide⟩

/--
C4 counterexample: an exhausted run (three attempts, classifier accepts)
and a non-retryable run (one attempt, classifier rejects) of operations
failing with the same message return exactly the same raw error
`some "boom"` — there is no ExhaustedError or NonRetryableError wrapper,
and the two failure kinds cannot be told apart from the returned error.
-/
theorem retry_error_indistinguishable_counterexample :
    (RetryWithBackoff 2 1000000000 10000000000 envExhaust).attempts = 3 ∧
    (RetryWithBackoff 2 1000000000 10000000000 envReject).attempts = 1 ∧
    (RetryWithBackoff 2 1000000000 10000000000 envExhaust).result = some "boom" ∧
    (RetryWithBackoff 2 1000000000 10000000000 envReject).result =
      (RetryWithBackoff 2 1000000000 10000000000 envExhaust).result := by
  refine ⟨by decide, by decide, by decide, by decide⟩

/--
C4 amended: RetryWithBackoff returns the underlying operation error
unchanged in both failure cases.  When the classifier rejects the first
error it returns it after exactly one attempt with no wait; when all
attempts on retryable errors are spent it returns the last operation
error as is.  No wrapper type exists, so the exhausted and non-retryable
cases are not distinguishable from the returned error alone.
-/
theorem retry_raw_error_amended (envN envE : RetryEnv) (m ib mb : Int) (M : Nat)
    (msg : String)
    (hm : 0 ≤ m)
    (h0 : envN.op 0 = some msg)
    (hrej : envN.errorClassifier msg = false)
    (hop : ∀ j, envE.op j ≠ none)
    (hcl : ∀ j m2, envE.op j = some m2 → envE.errorClassifier m2 = true)
    (hcan : ∀ j, envE.cancelled j = false) :
    RetryWithBackoff m ib mb envN = ⟨some msg, 1, [], []⟩ ∧
    (RetryWithBackoff (M : Int) ib mb envE).result = envE.op M ∧
    (RetryWithBackoff (M : Int) ib mb envE).attempts = M + 1 := by
  refine ⟨?_, ?_, ?_⟩
  · obtain ⟨t, ht⟩ : ∃ t, (m + 1).toNat = t + 1 := ⟨(m + 1).toNat - 1, by omega⟩
    rw [RetryWithBackoff, ht, retryGo]
    simp [h0, hrej]
  · rw [RetryWithBackoff_alwaysFail envE ib mb M hop hcl hcan]
  · rw [RetryWithBackoff_alwaysFail envE ib mb M hop hcl hcan]

/-- Witness for the amended C4: a non-retryable run with maxRetries = 3
and an exhausted run with maxRetries = 2. -/
theorem retry_raw_error_amended_witness :
    RetryWithBackoff 3 1000000000 10000000000 envNonRetryable =
      ⟨some "auth failure", 1, [], []⟩ ∧
    (RetryWithBackoff ((2 : Nat) : Int) 1000000000 10000000000 env0).result =
      env0.op 2 ∧
    (RetryWithBackoff ((2 : Nat) : Int) 1000000000 10000000000 env0).attempts =
      2 + 1 :=
  retry_raw_error_amended envNonRetryable env0 3 1000000000 10000000000 2
    "auth failure" (by decide) rfl rfl (fun _ h => Option.noConfusion h)
    (fun _ _ _ => rfl) (fun _ => rfl)

/--
C5 counterexample: with caching enabled, a valid model and a ttl string
parsing to the negative duration -1000ns, createCache succeeds (it
performs no sign check), stores the entry, and the stored entry is already
expired: ExpiresAt = -995 < 5 = CreatedAt.
-/
theorem cache_nonpositive_ttl_counterexample :
    (createCache cfgOn 5 5 [] reqNeg).1 =
      Except.ok ⟨"cache-5", "p", "deepseek-chat", ["f"], 5, -995⟩ ∧
    (createCache cfgOn 5 5 [] reqNeg).2 =
      [("cache-5", ⟨"cache-5", "p", "deepseek-chat", ["f"], 5, -995⟩)] ∧
    (-995 : Int) < 5 := by
  refine ⟨by decide, by decide, by decide⟩

/--
C5 amended: a ttl parsing to a zero or negative duration is not rejected:
whenever createCache succeeds on such a request it stores an entry with
ExpiresAt - CreatedAt equal to the supplied ttl, hence
ExpiresAt ≤ CreatedAt — an already-expired (or instantly expiring) entry.
-/
theorem cache_nonpositive_ttl_amended (cfg : Config) (tid tc : Int)
    (st : CacheMap) (req : CacheRequest) (info : CacheInfo) (st1 : CacheMap)
    (d : Int) (hT : req.TTL = .dur d) (hd : d ≤ 0)
    (hc : createCache cfg tid tc st req = (Except.ok info, st1)) :
    info.ExpiresAt ≤ info.CreatedAt ∧
    info.ExpiresAt - info.CreatedAt = d ∧
    mapGet st1 info.ID = some info := by
  obtain ⟨ttl, hr, hinfo, hst⟩ := createCache_ok cfg tid tc st req info st1 hc
  rw [hT] at hr
  simp only [resolveTTL, Except.ok.injEq] at hr
  subst hinfo
  subst hr
  refine ⟨by simpa using hd, by simp, ?_⟩
  rw [hst]
  exact mapGet_mapSet_self st _ _

/-- Witness for the amended C5 at the concrete negative-ttl request. -/
theorem cache_nonpositive_ttl_amended_witness :
    (⟨"cache-5", "p", "deepseek-chat", ["f"], 5, -995⟩ : CacheInfo).ExpiresAt ≤
      (⟨"cache-5", "p", "deepseek-chat", ["f"], 5, -995⟩ : CacheInfo).CreatedAt ∧
    (⟨"cache-5", "p", "deepseek-chat", ["f"], 5, -995⟩ : CacheInfo).ExpiresAt -
      (⟨"cache-5", "p", "deepseek-chat", ["f"], 5, -995⟩ : CacheInfo).CreatedAt = -1000 ∧
    mapGet [("cache-5", ⟨"cache-5", "p", "deepseek-chat", ["f"], 5, -995⟩)]
      (⟨"cache-5", "p", "deepseek-chat", ["f"], 5, -995⟩ : CacheInfo).ID =
      some ⟨"cache-5", "p", "deepseek-chat", ["f"], 5, -995⟩ :=
  cache_nonpositive_ttl_amended cfgOn 5 5 [] reqNeg
    ⟨"cache-5", "p", "deepseek-chat", ["f"], 5, -995⟩
    [("cache-5", ⟨"cache-5", "p", "deepseek-chat", ["f"], 5, -995⟩)]
    (-1000) rfl (by decide) (by decide)

/--
C6: for an entry stored by a successful createCache, once the clock is
strictly past its ExpiresAt the next getCache of its id removes the entry
and fails with the expired error, every later getCache of the same id
fails with the not-found error on the unchanged purged table, and the two
error messages are distinct.
-/
theorem cache_expired_then_not_found (cfg : Config) (tid tc now now2 : Int)
    (st : CacheMap) (req : CacheRequest) (info : CacheInfo) (st1 : CacheMap)
    (hc : createCache cfg tid tc st req = (Except.ok info, st1))
    (hexp : info.ExpiresAt < now) :
    getCache now st1 info.ID =
      (Except.error "cache has expired", mapDel st1 info.ID) ∧
    getCache now2 (mapDel st1 info.ID) info.ID =
      (Except.error ("cache not found: " ++ info.ID), mapDel st1 info.ID) ∧
    ("cache has expired" : String) ≠ "cache not found: " ++ info.ID := by
  obtain ⟨ttl, hr, hinfo, hst⟩ := createCache_ok cfg tid tc st req info st1 hc
  have hget : mapGet st1 info.ID = some info := by
    rw [hst]
    exact mapGet_mapSet_self st _ _
  refine ⟨?_, ?_, expired_ne_notFound info.ID⟩
  · rw [getCache, hget]
    simp [hexp]
  · rw [getCache, mapGet_mapDel_self]

/-- Witness for C6: entry created at 5 with ttl 1000ns, read at 2000 and
then at 3000. -/
theorem cache_expired_then_not_found_witness :
    getCache 2000 [("cache-5", info5)] info5.ID =
      (Except.error "cache has expired", mapDel [("cache-5", info5)] info5.ID) ∧
    getCache 3000 (mapDel [("cache-5", info5)] info5.ID) info5.ID =
      (Except.error ("cache not found: " ++ info5.ID),
        mapDel [("cache-5", info5)] info5.ID) ∧
    ("cache has expired" : String) ≠ "cache not found: " ++ info5.ID :=
  cache_expired_then_not_found cfgOn 5 5 2000 3000 [] req5 info5
    [("cache-5", info5)] (by decide) (by decide)

/--
C7: every successful createCache with a supplied ttl parsing to d > 0
stores an entry with ExpiresAt - CreatedAt = d exactly.
-/
theorem cache_ttl_exact (cfg : Config) (tid tc : Int) (st : CacheMap)
    (req : CacheRequest) (info : CacheInfo) (st1 : CacheMap) (d : Int)
    (hT : req.TTL = .dur d) (hpos : 0 < d)
    (hc : createCache cfg tid tc st req = (Except.ok info, st1)) :
    info.ExpiresAt - info.CreatedAt = d := by
  obtain ⟨ttl, hr, hinfo, hst⟩ := createCache_ok cfg tid tc st req info st1 hc
  rw [hT] at hr
  simp only [resolveTTL, Except.ok.injEq] at hr
  subst hinfo
  subst hr
  simp

/-- Witness for C7 at the concrete creation of info5. -/
theorem cache_ttl_exact_witness :
    info5.ExpiresAt - info5.CreatedAt = 1000 :=
  cache_ttl_exact cfgOn 5 5 [] req5 info5 [("cache-5", info5)] 1000
    rfl (by decide) (by decide)

/--
C8: whenever the cancellation signal fires during the wait with index d
(after d + 1 failed retryable attempts, with no earlier cancellation) and
that wait is not past the last attempt, RetryWithBackoff returns the
cancellation error, performs no further attempt (exactly d + 1 attempts in
total) and completes exactly d waits — the cancelled wait is never waited
out.
-/
theorem retry_cancel_during_wait (env : RetryEnv) (ib mb : Int) (M d : Nat)
    (hop : ∀ j, env.op j ≠ none)
    (hcl : ∀ j msg, env.op j = some msg → env.errorClassifier msg = true)
    (hd : d < M)
    (hbefore : ∀ j, j < d → env.cancelled j = false)
    (hat : env.cancelled d = true) :
    (RetryWithBackoff (M : Int) ib mb env).result = some cancelledMsg ∧
    (RetryWithBackoff (M : Int) ib mb env).attempts = d + 1 ∧
    (RetryWithBackoff (M : Int) ib mb env).waits.length = d := by
  have ht : ((M : Int) + 1).toNat = M + 1 := by omega
  rw [RetryWithBackoff, ht]
  exact retryGo_cancelled env mb hop hcl d M 0 ib none hd
    (fun j hj => by simpa using hbefore j hj) (by simpa using hat)

/-- Witness for C8: cancellation during the second wait of a run with
maxRetries = 4. -/
theorem retry_cancel_during_wait_witness :
    (RetryWithBackoff ((4 : Nat) : Int) 1000000000 10000000000 envCancelAt1).result =
      some cancelledMsg ∧
    (RetryWithBackoff ((4 : Nat) : Int) 1000000000 10000000000 envCancelAt1).attempts =
      1 + 1 ∧
    (RetryWithBackoff ((4 : Nat) : Int) 1000000000 10000000000 envCancelAt1).waits.length =
      1 :=
  retry_cancel_during_wait envCancelAt1 1000000000 10000000000 4 1
    (fun _ h => Option.noConfusion h) (fun _ _ _ => rfl) (by decide)
    (fun j hj => by
      have hj0 : j = 0 := by omega
      subst hj0
      rfl)
    rfl

/--
C9: for every negative maxRetries, RetryWithBackoff returns nil having
invoked nothing: zero attempts, no base delay is ever computed and no wait
occurs.
-/
theorem retry_negative_maxRetries (m ib mb : Int) (env : RetryEnv) (h : m < 0) :
    RetryWithBackoff m ib mb env = ⟨none, 0, [], []⟩ := by
  have ht : (m + 1).toNat = 0 := by omega
  rw [RetryWithBackoff, ht, retryGo]

/-- Witness for C9 at maxRetries = -1. -/
theorem retry_negative_maxRetries_witness :
    RetryWithBackoff (-1) 1000000000 10000000000 env0 = ⟨none, 0, [], []⟩ :=
  retry_negative_maxRetries (-1) 1000000000 10000000000 env0 (by decide)

/--
C10: with EnableCaching false, createCache fails with the caching-disabled
error and leaves the table unchanged for every request — including
requests whose model or ttl is invalid, showing the check precedes model
validation, TTL parsing and id generation.
-/
theorem cache_disabled_short_circuit (cfg : Config) (tid tc : Int)
    (st : CacheMap) (req : CacheRequest) (h : cfg.EnableCaching = false) :
    createCache cfg tid tc st req = (Except.error "caching is disabled", st) := by
  simp [createCache, h]

/-- Witness for C10 at a request with an unknown model and an unparseable
ttl: the error is still the caching-disabled one. -/
theorem cache_disabled_short_circuit_witness :
    createCache cfgOff 1 2 [] reqBad = (Except.error "caching is disabled", []) :=
  cache_disabled_short_circuit cfgOff 1 2 [] reqBad rfl

end DeepseekMCP
